import Mathlib

/-!
Verification development for the `regionx` spherical point-location bindings.

The repository's source (`src/lib.rs`) is a thin binding layer over the
`astroxide` core: it declares the public result enumeration `PointResult`
(`Inside`, `Outside`, `Edge`) and three region wrappers (`Polygon`,
`Aperture`, `Anulus`) whose methods forward to the core's
`SphericalPolygon`, `SphericalAperture` and `SphericalAnulus` and translate
the core's `PointLocation` values into `PointResult`.

The core itself is not part of the repository.  Its pieces are modelled
from the design specification (doc comments starting `Modelled from the
spec:`), constrained by what the binding source proves about them: the
binding matches on `PointLocation` exhaustively with exactly the three
arms `Inside`, `Outside`, `OnBoundary`, so the core's result type in the
version the binding compiles against has exactly those three variants.

Angles are modelled as exact rationals (degrees).  The great-circle
separation of two rational-degree coordinates is transcendental, so the
angular metric is taken as an explicit function parameter `sep`; every
theorem about cap and annulus classification is conditional only on the
value `sep` returns, hence holds for the true metric in particular.
-/

/-- The public result enumeration declared in `src/lib.rs`: exactly the
three variants `Inside`, `Outside`, `Edge`. -/
inductive PointResult where
  | Inside
  | Outside
  | Edge
deriving DecidableEq, Fintype

/-- The core's result enumeration.  The binding's `match` expressions on
it are exhaustive with exactly these three arms, so the core type has
exactly these three variants. -/
inductive PointLocation where
  | Inside
  | Outside
  | OnBoundary
deriving DecidableEq, Fintype

/-- Modelled from the spec: the four-variant result enumeration the design
document prescribes (§3 PointLocation: Inside, Outside, OnBoundary,
Antipodal).  Declared only to compare the spec's enumeration with the
enumeration the source actually declares. -/
inductive PointLocationSpec where
  | Inside
  | Outside
  | OnBoundary
  | Antipodal
deriving DecidableEq, Fintype

/-- Modelled from the spec: the construction- and query-time failure modes
of the core (§7 Error handling). -/
inductive RegionError where
  | InsufficientVertices
  | DegenerateEdge
  | InvalidRadius
  | InnerNotLessThanOuter
  | LengthMismatch
deriving DecidableEq, Fintype

/-- Modelled from the spec: the process-wide boundary tolerance
(§3 Tolerance), a single epsilon in angular degrees shared by all region
types.  The spec fixes no numeric value; the model fixes the positive
constant 1/1000000 degrees. -/
def EPSILON : ℚ := 1 / 1000000

/-- Two rational-degree coordinates denote the same point of the sphere:
equal declination, and either at a pole (where right ascension is
immaterial) or right ascensions differing by an integer multiple of 360. -/
def sameSpherePoint (a b : ℚ × ℚ) : Bool :=
  a.2 == b.2 && (a.2 == 90 || a.2 == -90 || ((a.1 - b.1) / 360).den == 1)

/-- Two rational-degree coordinates denote antipodal points of the sphere:
opposite declinations, and either at the poles or right ascensions
differing by 180 plus an integer multiple of 360. -/
def antipodalSpherePoint (a b : ℚ × ℚ) : Bool :=
  a.2 == -b.2 && (a.2 == 90 || a.2 == -90 || ((a.1 - b.1 - 180) / 360).den == 1)

/-- A consecutive vertex pair is degenerate when the two vertices coincide
or are antipodal (spec §3: edge direction undefined otherwise). -/
def degenerateVertexPair (a b : ℚ × ℚ) : Bool :=
  sameSpherePoint a b || antipodalSpherePoint a b

/-- Some cyclically consecutive pair of vertices is degenerate.  The
polygon is closed, so the pair (last, first) counts as consecutive. -/
def hasDegenerateEdge (verts : List (ℚ × ℚ)) : Bool :=
  decide (∃ i : Fin verts.length,
    degenerateVertexPair (verts.get i)
      (verts.get ⟨(i.val + 1) % verts.length, Nat.mod_lt _ i.pos⟩) = true)

/-- Modelled from the spec: the core's polygon region (astroxide
`SphericalPolygon`, absent from `src/`) — an ordered, closed sequence of
vertices in degree coordinates (§3 PolygonRegion). -/
structure SphericalPolygon where
  verts : List (ℚ × ℚ)
deriving DecidableEq

/-- Modelled from the spec: polygon construction (§4.5) validates the
vertex count (at least 3 ⇒ otherwise `InsufficientVertices`) and rejects
degenerate consecutive vertex pairs (`DegenerateEdge`); on failure no
region value is produced. -/
def SphericalPolygon.new (ras decs : List ℚ) :
    Except RegionError SphericalPolygon :=
  let verts := ras.zip decs
  if verts.length < 3 then .error .InsufficientVertices
  else if hasDegenerateEdge verts then .error .DegenerateEdge
  else .ok ⟨verts⟩

/-- The closed edge list of a vertex sequence: each vertex paired with its
cyclic successor. -/
def edgesOf (verts : List (ℚ × ℚ)) : List ((ℚ × ℚ) × (ℚ × ℚ)) :=
  verts.zip (verts.rotate 1)

/-- The query point lies within the epsilon band of the edge from `a` to
`b`: its perpendicular distance to the line is at most `EPSILON` (stated
squared, exactly, as cross² ≤ ε²·len²) and its projection falls within the
edge's span (spec §4.5 step 3). -/
def withinBand (p a b : ℚ × ℚ) : Bool :=
  let dx := b.1 - a.1
  let dy := b.2 - a.2
  let ux := p.1 - a.1
  let uy := p.2 - a.2
  let crossv := dx * uy - dy * ux
  let dotv := dx * ux + dy * uy
  let len2 := dx * dx + dy * dy
  decide (crossv * crossv ≤ EPSILON * EPSILON * len2 ∧ 0 ≤ dotv ∧ dotv ≤ len2)

/-- The eastward ray from the query point crosses the edge from `a` to
`b` (even-odd crossing rule, spec §4.5 step 2): the endpoints straddle the
ray's latitude and the intersection lies strictly east of the point. -/
def rayCrosses (p a b : ℚ × ℚ) : Bool :=
  let above_a := decide (p.2 < a.2)
  let above_b := decide (p.2 < b.2)
  above_a != above_b &&
    decide (p.1 < a.1 + (p.2 - a.2) * (b.1 - a.1) / (b.2 - a.2))

/-- Modelled from the spec: the core's polygon point test (§4.5), the
even-odd crossing-number rule with a prior epsilon boundary-band check,
realized exactly on rational degree coordinates (the spec's spherical
arcs are transcendental in the rational inputs; no claim in scope depends
on spherical-specific behaviour of this test).  The result type has three
variants, as the binding's exhaustive matches establish. -/
def SphericalPolygon.locate_point (poly : SphericalPolygon) (ra dec : ℚ) :
    PointLocation :=
  let p := (ra, dec)
  let es := edgesOf poly.verts
  if es.any (fun e => withinBand p e.1 e.2) then .OnBoundary
  else if es.countP (fun e => rayCrosses p e.1 e.2) % 2 == 1 then .Inside
  else .Outside

/-- Modelled from the spec: the core's batch polygon test (§4.6
BatchEvaluator) — fails with `LengthMismatch` on unequal input lengths,
otherwise classifies each coordinate pair in order with `locate_point`. -/
def SphericalPolygon.locate_points (poly : SphericalPolygon)
    (ras decs : List ℚ) : Except RegionError (List PointLocation) :=
  if ras.length ≠ decs.length then .error .LengthMismatch
  else .ok (List.zipWith (fun a b => poly.locate_point a b) ras decs)

/-- Modelled from the spec: the core's spherical cap (astroxide
`SphericalAperture`, absent from `src/`) — center and angular radius in
degrees (§3 ApertureRegion). -/
structure SphericalAperture where
  ra_center : ℚ
  dec_center : ℚ
  radius_deg : ℚ
deriving DecidableEq

/-- Modelled from the spec: aperture construction fails with
`InvalidRadius` if the radius is ≤ 0 or > 180 (§4.3). -/
def SphericalAperture.new (ra dec r : ℚ) :
    Except RegionError SphericalAperture :=
  if r ≤ 0 ∨ 180 < r then .error .InvalidRadius
  else .ok ⟨ra, dec, r⟩

/-- Modelled from the spec: the cap point test (§4.3).  `sep` is the
angular metric (§4.2), taken as a parameter because the true great-circle
separation is transcendental in rational degree inputs. -/
def SphericalAperture.locate_point (sep : ℚ → ℚ → ℚ → ℚ → ℚ)
    (ap : SphericalAperture) (ra dec : ℚ) : PointLocation :=
  let s := sep ap.ra_center ap.dec_center ra dec
  if |s - ap.radius_deg| ≤ EPSILON then .OnBoundary
  else if s < ap.radius_deg then .Inside
  else .Outside

/-- Modelled from the spec: the core's batch cap test (§4.6). -/
def SphericalAperture.locate_points (sep : ℚ → ℚ → ℚ → ℚ → ℚ)
    (ap : SphericalAperture) (ras decs : List ℚ) :
    Except RegionError (List PointLocation) :=
  if ras.length ≠ decs.length then .error .LengthMismatch
  else .ok (List.zipWith (fun a b => ap.locate_point sep a b) ras decs)

/-- Modelled from the spec: the core's annulus (astroxide
`SphericalAnulus`, absent from `src/`) — center with inner and outer
angular radii (§3 AnnulusRegion). -/
structure SphericalAnulus where
  ra_center : ℚ
  dec_center : ℚ
  inner_radius : ℚ
  outer_radius : ℚ
deriving DecidableEq

/-- Modelled from the spec: annulus construction fails with
`InvalidRadius` on a negative or > 180 radius, and otherwise with
`InnerNotLessThanOuter` when the inner radius is not strictly below the
outer (§4.4, §7). -/
def SphericalAnulus.new (ra dec inner outer : ℚ) :
    Except RegionError SphericalAnulus :=
  if inner < 0 ∨ outer < 0 ∨ 180 < inner ∨ 180 < outer then
    .error .InvalidRadius
  else if outer ≤ inner then .error .InnerNotLessThanOuter
  else .ok ⟨ra, dec, inner, outer⟩

/-- Modelled from the spec: the annulus point test (§4.4), with the
angular metric `sep` as a parameter. -/
def SphericalAnulus.locate_point (sep : ℚ → ℚ → ℚ → ℚ → ℚ)
    (an : SphericalAnulus) (ra dec : ℚ) : PointLocation :=
  let s := sep an.ra_center an.dec_center ra dec
  if |s - an.inner_radius| ≤ EPSILON ∨ |s - an.outer_radius| ≤ EPSILON then
    .OnBoundary
  else if an.inner_radius < s ∧ s < an.outer_radius then .Inside
  else .Outside

/-- Modelled from the spec: the core's batch annulus test (§4.6). -/
def SphericalAnulus.locate_points (sep : ℚ → ℚ → ℚ → ℚ → ℚ)
    (an : SphericalAnulus) (ras decs : List ℚ) :
    Except RegionError (List PointLocation) :=
  if ras.length ≠ decs.length then .error .LengthMismatch
  else .ok (List.zipWith (fun a b => an.locate_point sep a b) ras decs)

/-- The binding's `Polygon` wrapper (`src/lib.rs`). -/
structure Polygon where
  polygon : SphericalPolygon
deriving DecidableEq

/-- Binding `Polygon::new`: constructs the core polygon and unwraps; a core
construction failure aborts the constructor (modelled as error
propagation), so no wrapper is produced on failure. -/
def Polygon.new (ra_verticies dec_verticies : List ℚ) :
    Except RegionError Polygon :=
  (SphericalPolygon.new ra_verticies dec_verticies).map fun polygon =>
    ⟨polygon⟩

/-- Binding `Polygon::is_inside`: forwards to the core and translates the result,
with the match arms in the source's order. -/
def Polygon.is_inside (self : Polygon) (ra_point dec_point : ℚ) :
    PointResult :=
  match self.polygon.locate_point ra_point dec_point with
  | .Inside => .Inside
  | .Outside => .Outside
  | .OnBoundary => .Edge

/-- Binding `Polygon::locate_all`: forwards the coordinate lists to the core batch
test and translates each result in order. -/
def Polygon.locate_all (self : Polygon) (ra_points dec_points : List ℚ) :
    Except RegionError (List PointResult) := do
  let results ← self.polygon.locate_points ra_points dec_points
  return results.map fun result =>
    match result with
    | PointLocation.Inside => PointResult.Inside
    | PointLocation.Outside => PointResult.Outside
    | PointLocation.OnBoundary => PointResult.Edge

/-- The binding's `Aperture` wrapper (`src/lib.rs`). -/
structure Aperture where
  aperture : SphericalAperture
deriving DecidableEq

/-- Binding `Aperture::new`: constructs the core aperture; a core validation
failure aborts the constructor (modelled as error propagation). -/
def Aperture.new (ra_center dec_center radius_deg : ℚ) :
    Except RegionError Aperture :=
  (SphericalAperture.new ra_center dec_center radius_deg).map fun sph_app =>
    ⟨sph_app⟩

/-- Binding `Aperture::is_inside`, with the match arms in the source's order. -/
def Aperture.is_inside (sep : ℚ → ℚ → ℚ → ℚ → ℚ) (self : Aperture)
    (ra_point dec_point : ℚ) : PointResult :=
  match self.aperture.locate_point sep ra_point dec_point with
  | .OnBoundary => .Edge
  | .Inside => .Inside
  | .Outside => .Outside

/-- Binding `Aperture::locate_all`. -/
def Aperture.locate_all (sep : ℚ → ℚ → ℚ → ℚ → ℚ) (self : Aperture)
    (ra_points dec_points : List ℚ) : Except RegionError (List PointResult) := do
  let results ← self.aperture.locate_points sep ra_points dec_points
  return results.map fun result =>
    match result with
    | PointLocation.OnBoundary => PointResult.Edge
    | PointLocation.Inside => PointResult.Inside
    | PointLocation.Outside => PointResult.Outside

/-- The binding's `Anulus` wrapper (`src/lib.rs`). -/
structure Anulus where
  anulus : SphericalAnulus
deriving DecidableEq

/-- Binding `Anulus::new`: constructs the core annulus; a core validation failure
aborts the constructor (modelled as error propagation). -/
def Anulus.new (ra_center dec_center inner_radius outer_radius : ℚ) :
    Except RegionError Anulus :=
  (SphericalAnulus.new ra_center dec_center inner_radius outer_radius).map
    fun sph_app => ⟨sph_app⟩

/-- Binding `Anulus::is_inside`, with the match arms in the source's order. -/
def Anulus.is_inside (sep : ℚ → ℚ → ℚ → ℚ → ℚ) (self : Anulus)
    (ra_point dec_point : ℚ) : PointResult :=
  match self.anulus.locate_point sep ra_point dec_point with
  | .OnBoundary => .Edge
  | .Inside => .Inside
  | .Outside => .Outside

/-- Binding `Anulus::locate_all`. -/
def Anulus.locate_all (sep : ℚ → ℚ → ℚ → ℚ → ℚ) (self : Anulus)
    (ra_points dec_points : List ℚ) : Except RegionError (List PointResult) := do
  let results ← self.anulus.locate_points sep ra_points dec_points
  return results.map fun result =>
    match result with
    | PointLocation.OnBoundary => PointResult.Edge
    | PointLocation.Inside => PointResult.Inside
    | PointLocation.Outside => PointResult.Outside

/-- The fixed core-to-public renaming the binding applies in every query
path: `Inside ↦ Inside`, `Outside ↦ Outside`, `OnBoundary ↦ Edge`. -/
def toPointResult : PointLocation → PointResult
  | .Inside => .Inside
  | .Outside => .Outside
  | .OnBoundary => .Edge

/-! ### Helper lemmas -/

instance {ε α : Type} [DecidableEq ε] [DecidableEq α] :
    DecidableEq (Except ε α) := fun a b =>
  match a, b with
  | .ok a, .ok b =>
      if h : a = b then isTrue (by rw [h])
      else isFalse fun hc => h (Except.ok.inj hc)
  | .error a, .error b =>
      if h : a = b then isTrue (by rw [h])
      else isFalse fun hc => h (Except.error.inj hc)
  | .ok _, .error _ => isFalse Except.noConfusion
  | .error _, .ok _ => isFalse Except.noConfusion

/-- Every value of the public enumeration is one of its three variants. -/
theorem pointResult_trichotomy (r : PointResult) :
    r = .Inside ∨ r = .Outside ∨ r = .Edge := by
  cases r <;> simp

/-- The translation the binding inlines in each query path coincides with
the fixed renaming `toPointResult`. -/
theorem translate_eq_toPointResult (loc : PointLocation) :
    (match loc with
      | PointLocation.Inside => PointResult.Inside
      | PointLocation.Outside => PointResult.Outside
      | PointLocation.OnBoundary => PointResult.Edge) = toPointResult loc := by
  cases loc <;> rfl

/-- The translation the binding inlines in the aperture and annulus query
paths (whose match arms list OnBoundary first) also coincides with the
fixed renaming `toPointResult`. -/
theorem translate_rev_eq_toPointResult (loc : PointLocation) :
    (match loc with
      | PointLocation.OnBoundary => PointResult.Edge
      | PointLocation.Inside => PointResult.Inside
      | PointLocation.Outside => PointResult.Outside) = toPointResult loc := by
  cases loc <;> rfl

/-! ### Claims -/

/-- C1 (counterexample): the public result enumeration declared in the
source has three variants, not four; it is not (equivalent to) the spec's
four-variant enumeration with `Antipodal`. -/
theorem c1_counterexample :
    Fintype.card PointResult = 3 ∧ Fintype.card PointLocationSpec = 4 ∧
      IsEmpty (PointResult ≃ PointLocationSpec) := by
  have h3 : Fintype.card PointResult = 3 := rfl
  have h4 : Fintype.card PointLocationSpec = 4 := rfl
  refine ⟨h3, h4, ⟨fun e => ?_⟩⟩
  have h := Fintype.card_congr e
  rw [h3, h4] at h
  exact absurd h (by decide)

/-- C1 (amended): the result enumeration returned by every locate
operation is the three-variant value type {Inside, Outside, Edge} with
structural (decidable) equality: for every region type and every query the
returned value is one of exactly these three variants, and `Antipodal` is
not a possible outcome of the public interface. -/
theorem c1_result_enum_three_variants (sep : ℚ → ℚ → ℚ → ℚ → ℚ)
    (poly : Polygon) (ap : Aperture) (an : Anulus) (ra dec : ℚ) :
    (∀ r : PointResult, r = .Inside ∨ r = .Outside ∨ r = .Edge) ∧
    (poly.is_inside ra dec = .Inside ∨ poly.is_inside ra dec = .Outside ∨
      poly.is_inside ra dec = .Edge) ∧
    (Aperture.is_inside sep ap ra dec = .Inside ∨
      Aperture.is_inside sep ap ra dec = .Outside ∨
      Aperture.is_inside sep ap ra dec = .Edge) ∧
    (Anulus.is_inside sep an ra dec = .Inside ∨
      Anulus.is_inside sep an ra dec = .Outside ∨
      Anulus.is_inside sep an ra dec = .Edge) :=
  ⟨pointResult_trichotomy, pointResult_trichotomy _,
    pointResult_trichotomy _, pointResult_trichotomy _⟩

unseal Rat.add Rat.sub Rat.mul Rat.inv in
/-- C2 (counterexample): for the square polygon of the spec's scenarios,
the query at the exact antipode (180, 0) of the vertex (0, 0) does not
return `Antipodal`: it returns `Outside`, and the public enumeration's
universe {Inside, Outside, Edge} contains no `Antipodal` outcome at
all. -/
theorem c2_counterexample :
    ((Polygon.new [0, 0, 10, 10] [0, 10, 10, 0]).map fun p =>
        p.is_inside 180 0) = Except.ok PointResult.Outside ∧
    (Finset.univ : Finset PointResult) =
      {PointResult.Inside, PointResult.Outside, PointResult.Edge} := by
  exact ⟨by decide, by decide⟩

/-- C2 (amended): a polygon query at the exact antipode of one of the
polygon's vertices returns one of the three public variants Inside,
Outside, Edge — without raising an error — and `Antipodal` is not among
the possible outcomes of the interface. -/
theorem c2_antipode_query_in_three_variants (poly : Polygon) (vra vdec : ℚ)
    (_hv : (vra, vdec) ∈ poly.polygon.verts) :
    poly.is_inside (vra + 180) (-vdec) = .Inside ∨
    poly.is_inside (vra + 180) (-vdec) = .Outside ∨
    poly.is_inside (vra + 180) (-vdec) = .Edge :=
  pointResult_trichotomy _

unseal Rat.add Rat.sub Rat.mul Rat.inv in
/-- C2 witness: the amended statement evaluated on the spec's square
polygon at the antipode of its first vertex. -/
theorem c2_witness :
    ((0 : ℚ), (0 : ℚ)) ∈
      (Polygon.mk ⟨[(0, 0), (0, 10), (10, 10), (10, 0)]⟩).polygon.verts ∧
    ((Polygon.mk ⟨[(0, 0), (0, 10), (10, 10), (10, 0)]⟩).is_inside
        ((0 : ℚ) + 180) (-(0 : ℚ)) = .Inside ∨
      (Polygon.mk ⟨[(0, 0), (0, 10), (10, 10), (10, 0)]⟩).is_inside
        ((0 : ℚ) + 180) (-(0 : ℚ)) = .Outside ∨
      (Polygon.mk ⟨[(0, 0), (0, 10), (10, 10), (10, 0)]⟩).is_inside
        ((0 : ℚ) + 180) (-(0 : ℚ)) = .Edge) :=
  ⟨by decide,
    c2_antipode_query_in_three_variants
      (Polygon.mk ⟨[(0, 0), (0, 10), (10, 10), (10, 0)]⟩) 0 0 (by decide)⟩

/-- C7: for every aperture with center c and radius r, every angular
metric, and every query point p with separation sep(c, p): a separation
below r − epsilon yields Inside, above r + epsilon yields Outside, and
within epsilon of r yields OnBoundary. -/
theorem c7_aperture_classification (sep : ℚ → ℚ → ℚ → ℚ → ℚ)
    (ap : SphericalAperture) (ra dec : ℚ) :
    (sep ap.ra_center ap.dec_center ra dec < ap.radius_deg - EPSILON →
      ap.locate_point sep ra dec = .Inside) ∧
    (ap.radius_deg + EPSILON < sep ap.ra_center ap.dec_center ra dec →
      ap.locate_point sep ra dec = .Outside) ∧
    (|sep ap.ra_center ap.dec_center ra dec - ap.radius_deg| ≤ EPSILON →
      ap.locate_point sep ra dec = .OnBoundary) := by
  have hε : (0 : ℚ) < EPSILON := by norm_num [EPSILON]
  refine ⟨fun h => ?_, fun h => ?_, fun h => ?_⟩
  · have hb : ¬(|sep ap.ra_center ap.dec_center ra dec - ap.radius_deg| ≤
        EPSILON) := fun hc => by rw [abs_le] at hc; linarith [hc.1]
    have hlt : sep ap.ra_center ap.dec_center ra dec < ap.radius_deg := by
      linarith
    simp [SphericalAperture.locate_point, hb, hlt]
  · have hb : ¬(|sep ap.ra_center ap.dec_center ra dec - ap.radius_deg| ≤
        EPSILON) := fun hc => by rw [abs_le] at hc; linarith [hc.2]
    have hge : ¬(sep ap.ra_center ap.dec_center ra dec < ap.radius_deg) := by
      push_neg; linarith
    simp [SphericalAperture.locate_point, hb, hge]
  · simp [SphericalAperture.locate_point, h]

/-- C7 witness: the spec's concrete aperture scenario — center (10, 20),
radius 5, with the meridian separation — classified at separations 6, 1
and 5. -/
theorem c7_witness :
    SphericalAperture.locate_point (fun _ a _ b => |b - a|) ⟨10, 20, 5⟩ 10 26 =
        .Outside ∧
    SphericalAperture.locate_point (fun _ a _ b => |b - a|) ⟨10, 20, 5⟩ 10 21 =
        .Inside ∧
    SphericalAperture.locate_point (fun _ a _ b => |b - a|) ⟨10, 20, 5⟩ 10 25 =
        .OnBoundary :=
  ⟨(c7_aperture_classification (fun _ a _ b => |b - a|) ⟨10, 20, 5⟩ 10 26).2.1
      (by norm_num [EPSILON, abs_of_nonneg]),
   (c7_aperture_classification (fun _ a _ b => |b - a|) ⟨10, 20, 5⟩ 10 21).1
      (by norm_num [EPSILON, abs_of_nonneg]),
   (c7_aperture_classification (fun _ a _ b => |b - a|) ⟨10, 20, 5⟩ 10 25).2.2
      (by norm_num [EPSILON, abs_of_nonneg])⟩

/-- C9: in every query path of every region type the binding translates
the core's result by the same fixed renaming `toPointResult` (core Inside
to public Inside, core Outside to public Outside, core OnBoundary to the
public variant named Edge), and that renaming is a bijection between the
core and public enumerations. -/
theorem c9_uniform_translation (sep : ℚ → ℚ → ℚ → ℚ → ℚ) (poly : Polygon)
    (ap : Aperture) (an : Anulus) (ra dec : ℚ) (ras decs : List ℚ) :
    poly.is_inside ra dec = toPointResult (poly.polygon.locate_point ra dec) ∧
    Aperture.is_inside sep ap ra dec =
      toPointResult (ap.aperture.locate_point sep ra dec) ∧
    Anulus.is_inside sep an ra dec =
      toPointResult (an.anulus.locate_point sep ra dec) ∧
    poly.locate_all ras decs =
      (poly.polygon.locate_points ras decs).map (List.map toPointResult) ∧
    Aperture.locate_all sep ap ras decs =
      (ap.aperture.locate_points sep ras decs).map (List.map toPointResult) ∧
    Anulus.locate_all sep an ras decs =
      (an.anulus.locate_points sep ras decs).map (List.map toPointResult) ∧
    Function.Bijective toPointResult ∧
    toPointResult .OnBoundary = .Edge ∧
    toPointResult .Inside = .Inside ∧
    toPointResult .Outside = .Outside := by
  refine ⟨?_, ?_, ?_, ?_, ?_, ?_, ⟨by decide, by decide⟩, rfl, rfl, rfl⟩
  · exact translate_eq_toPointResult (poly.polygon.locate_point ra dec)
  · exact translate_rev_eq_toPointResult (ap.aperture.locate_point sep ra dec)
  · exact translate_rev_eq_toPointResult (an.anulus.locate_point sep ra dec)
  · show (poly.polygon.locate_points ras decs).bind _ = _
    cases h : poly.polygon.locate_points ras decs with
    | error e => rfl
    | ok xs =>
        exact congrArg Except.ok
          (List.map_congr_left fun loc _ => translate_eq_toPointResult loc)
  · show (ap.aperture.locate_points sep ras decs).bind _ = _
    cases h : ap.aperture.locate_points sep ras decs with
    | error e => rfl
    | ok xs =>
        exact congrArg Except.ok
          (List.map_congr_left fun loc _ => translate_rev_eq_toPointResult loc)
  · show (an.anulus.locate_points sep ras decs).bind _ = _
    cases h : an.anulus.locate_points sep ras decs with
    | error e => rfl
    | ok xs =>
        exact congrArg Except.ok
          (List.map_congr_left fun loc _ => translate_rev_eq_toPointResult loc)

/-- C6: aperture construction fails with InvalidRadius for every radius
≤ 0 or > 180; annulus construction fails with InvalidRadius for a
negative or > 180 radius, and — the radii being individually valid — with
InnerNotLessThanOuter whenever the inner radius is ≥ the outer radius. -/
theorem c6_radius_validation (ra dec r inner outer : ℚ) :
    (r ≤ 0 ∨ 180 < r → Aperture.new ra dec r = .error .InvalidRadius) ∧
    (inner < 0 ∨ outer < 0 ∨ 180 < inner ∨ 180 < outer →
      Anulus.new ra dec inner outer = .error .InvalidRadius) ∧
    (0 ≤ inner → 0 ≤ outer → inner ≤ 180 → outer ≤ 180 → outer ≤ inner →
      Anulus.new ra dec inner outer = .error .InnerNotLessThanOuter) := by
  refine ⟨fun h => ?_, fun h => ?_, fun h1 h2 h3 h4 h5 => ?_⟩
  · simp [Aperture.new, SphericalAperture.new, if_pos h, Except.map]
  · simp [Anulus.new, SphericalAnulus.new, if_pos h, Except.map]
  · have hn : ¬(inner < 0 ∨ outer < 0 ∨ 180 < inner ∨ 180 < outer) := by
      push_neg
      exact ⟨h1, h2, h3, h4⟩
    simp [Anulus.new, SphericalAnulus.new, hn, if_pos h5, Except.map]

/-- C6 witness: a zero aperture radius, a negative annulus radius and an
annulus with inner = outer are each rejected with the claimed error. -/
theorem c6_witness :
    Aperture.new 0 0 0 = .error .InvalidRadius ∧
    Anulus.new 0 0 (-1) 5 = .error .InvalidRadius ∧
    Anulus.new 0 0 5 5 = .error .InnerNotLessThanOuter :=
  ⟨(c6_radius_validation 0 0 0 0 0).1 (Or.inl le_rfl),
   (c6_radius_validation 0 0 0 (-1) 5).2.1 (Or.inl (by norm_num)),
   (c6_radius_validation 0 0 0 5 5).2.2 (by norm_num) (by norm_num)
     (by norm_num) (by norm_num) le_rfl⟩

/-- C4: for every region type, whenever the right-ascension and
declination lists passed to locate_all differ in length, the call fails
with the LengthMismatch error and produces no partial result list. -/
theorem c4_length_mismatch (sep : ℚ → ℚ → ℚ → ℚ → ℚ) (poly : Polygon)
    (ap : Aperture) (an : Anulus) (ras decs : List ℚ)
    (h : ras.length ≠ decs.length) :
    poly.locate_all ras decs = .error .LengthMismatch ∧
    Aperture.locate_all sep ap ras decs = .error .LengthMismatch ∧
    Anulus.locate_all sep an ras decs = .error .LengthMismatch := by
  refine ⟨?_, ?_, ?_⟩
  · show (poly.polygon.locate_points ras decs).bind _ = _
    rw [SphericalPolygon.locate_points, if_pos h]
    rfl
  · show (ap.aperture.locate_points sep ras decs).bind _ = _
    rw [SphericalAperture.locate_points, if_pos h]
    rfl
  · show (an.anulus.locate_points sep ras decs).bind _ = _
    rw [SphericalAnulus.locate_points, if_pos h]
    rfl

/-- C4 witness: a one-element right-ascension list against an empty
declination list is rejected by all three region types. -/
theorem c4_witness :
    Polygon.locate_all ⟨⟨[(0, 0), (0, 10), (10, 10)]⟩⟩ [1] [] =
        .error .LengthMismatch ∧
    Aperture.locate_all (fun _ _ _ _ => 0) ⟨⟨0, 0, 5⟩⟩ [1] [] =
        .error .LengthMismatch ∧
    Anulus.locate_all (fun _ _ _ _ => 0) ⟨⟨0, 0, 2, 5⟩⟩ [1] [] =
        .error .LengthMismatch :=
  c4_length_mismatch (fun _ _ _ _ => 0) ⟨⟨[(0, 0), (0, 10), (10, 10)]⟩⟩
    ⟨⟨0, 0, 5⟩⟩ ⟨⟨0, 0, 2, 5⟩⟩ [1] [] (by decide)

/-- Pointwise description of zipWith: its length (under equal input
lengths) and its entries. -/
theorem zipWith_spec {α β γ : Type} (f : α → β → γ) (l1 : List α)
    (l2 : List β) (h : l1.length = l2.length) :
    (List.zipWith f l1 l2).length = l1.length ∧
    ∀ (i : ℕ) (hi : i < (List.zipWith f l1 l2).length) (h1 : i < l1.length)
      (h2 : i < l2.length),
      (List.zipWith f l1 l2).get ⟨i, hi⟩ =
        f (l1.get ⟨i, h1⟩) (l2.get ⟨i, h2⟩) := by
  constructor
  · rw [List.length_zipWith, h, Nat.min_self]
  · intro i hi h1 h2
    simp [List.getElem_zipWith]

/-- On equal-length inputs, the polygon batch path returns exactly the
per-point results of the single-point binding method, in order. -/
theorem polygon_locate_all_eq (poly : Polygon) (ras decs : List ℚ)
    (h : ras.length = decs.length) :
    poly.locate_all ras decs =
      .ok (List.zipWith (fun a b => poly.is_inside a b) ras decs) := by
  show (poly.polygon.locate_points ras decs).bind _ = _
  rw [SphericalPolygon.locate_points, if_neg (fun hc => hc h)]
  refine congrArg Except.ok ?_
  rw [List.map_zipWith]
  rfl

/-- On equal-length inputs, the aperture batch path returns exactly the
per-point results of the single-point binding method, in order. -/
theorem aperture_locate_all_eq (sep : ℚ → ℚ → ℚ → ℚ → ℚ) (ap : Aperture)
    (ras decs : List ℚ) (h : ras.length = decs.length) :
    Aperture.locate_all sep ap ras decs =
      .ok (List.zipWith (fun a b => Aperture.is_inside sep ap a b) ras decs) := by
  show (ap.aperture.locate_points sep ras decs).bind _ = _
  rw [SphericalAperture.locate_points, if_neg (fun hc => hc h)]
  refine congrArg Except.ok ?_
  rw [List.map_zipWith]
  rfl

/-- On equal-length inputs, the annulus batch path returns exactly the
per-point results of the single-point binding method, in order. -/
theorem anulus_locate_all_eq (sep : ℚ → ℚ → ℚ → ℚ → ℚ) (an : Anulus)
    (ras decs : List ℚ) (h : ras.length = decs.length) :
    Anulus.locate_all sep an ras decs =
      .ok (List.zipWith (fun a b => Anulus.is_inside sep an a b) ras decs) := by
  show (an.anulus.locate_points sep ras decs).bind _ = _
  rw [SphericalAnulus.locate_points, if_neg (fun hc => hc h)]
  refine congrArg Except.ok ?_
  rw [List.map_zipWith]
  rfl

/-- C3: for every region type and every pair of equal-length coordinate
lists, locate_all succeeds with a list of the same length as the input
whose i-th element is the single-point query at (ras[i], decs[i]), in
input order. -/
theorem c3_locate_all_pointwise (sep : ℚ → ℚ → ℚ → ℚ → ℚ) (poly : Polygon)
    (ap : Aperture) (an : Anulus) (ras decs : List ℚ)
    (h : ras.length = decs.length) :
    (∃ out, poly.locate_all ras decs = .ok out ∧ out.length = ras.length ∧
      ∀ (i : ℕ) (hi : i < out.length) (h1 : i < ras.length)
        (h2 : i < decs.length),
        out.get ⟨i, hi⟩ =
          poly.is_inside (ras.get ⟨i, h1⟩) (decs.get ⟨i, h2⟩)) ∧
    (∃ out, Aperture.locate_all sep ap ras decs = .ok out ∧
      out.length = ras.length ∧
      ∀ (i : ℕ) (hi : i < out.length) (h1 : i < ras.length)
        (h2 : i < decs.length),
        out.get ⟨i, hi⟩ =
          Aperture.is_inside sep ap (ras.get ⟨i, h1⟩) (decs.get ⟨i, h2⟩)) ∧
    (∃ out, Anulus.locate_all sep an ras decs = .ok out ∧
      out.length = ras.length ∧
      ∀ (i : ℕ) (hi : i < out.length) (h1 : i < ras.length)
        (h2 : i < decs.length),
        out.get ⟨i, hi⟩ =
          Anulus.is_inside sep an (ras.get ⟨i, h1⟩) (decs.get ⟨i, h2⟩)) := by
  refine
    ⟨⟨_, polygon_locate_all_eq poly ras decs h,
        (zipWith_spec _ ras decs h).1, (zipWith_spec _ ras decs h).2⟩,
     ⟨_, aperture_locate_all_eq sep ap ras decs h,
        (zipWith_spec _ ras decs h).1, (zipWith_spec _ ras decs h).2⟩,
     ⟨_, anulus_locate_all_eq sep an ras decs h,
        (zipWith_spec _ ras decs h).1, (zipWith_spec _ ras decs h).2⟩⟩

/-- C3 witness: the pointwise batch description instantiated on the
square polygon, the scenario aperture and annulus, and the two-point
input (5, 5), (50, 50). -/
theorem c3_witness :
    (∃ out,
      Polygon.locate_all ⟨⟨[(0, 0), (0, 10), (10, 10), (10, 0)]⟩⟩ [5, 50]
          [5, 50] = .ok out ∧
      out.length = ([5, 50] : List ℚ).length ∧
      ∀ (i : ℕ) (hi : i < out.length) (h1 : i < ([5, 50] : List ℚ).length)
        (h2 : i < ([5, 50] : List ℚ).length),
        out.get ⟨i, hi⟩ =
          Polygon.is_inside ⟨⟨[(0, 0), (0, 10), (10, 10), (10, 0)]⟩⟩
            (([5, 50] : List ℚ).get ⟨i, h1⟩)
            (([5, 50] : List ℚ).get ⟨i, h2⟩)) ∧
    (∃ out,
      Aperture.locate_all (fun _ a _ b => |b - a|) ⟨⟨10, 20, 5⟩⟩ [5, 50]
          [5, 50] = .ok out ∧
      out.length = ([5, 50] : List ℚ).length ∧
      ∀ (i : ℕ) (hi : i < out.length) (h1 : i < ([5, 50] : List ℚ).length)
        (h2 : i < ([5, 50] : List ℚ).length),
        out.get ⟨i, hi⟩ =
          Aperture.is_inside (fun _ a _ b => |b - a|) ⟨⟨10, 20, 5⟩⟩
            (([5, 50] : List ℚ).get ⟨i, h1⟩)
            (([5, 50] : List ℚ).get ⟨i, h2⟩)) ∧
    (∃ out,
      Anulus.locate_all (fun _ a _ b => |b - a|) ⟨⟨0, 0, 2, 5⟩⟩ [5, 50]
          [5, 50] = .ok out ∧
      out.length = ([5, 50] : List ℚ).length ∧
      ∀ (i : ℕ) (hi : i < out.length) (h1 : i < ([5, 50] : List ℚ).length)
        (h2 : i < ([5, 50] : List ℚ).length),
        out.get ⟨i, hi⟩ =
          Anulus.is_inside (fun _ a _ b => |b - a|) ⟨⟨0, 0, 2, 5⟩⟩
            (([5, 50] : List ℚ).get ⟨i, h1⟩)
            (([5, 50] : List ℚ).get ⟨i, h2⟩)) :=
  c3_locate_all_pointwise (fun _ a _ b => |b - a|)
    ⟨⟨[(0, 0), (0, 10), (10, 10), (10, 0)]⟩⟩ ⟨⟨10, 20, 5⟩⟩ ⟨⟨0, 0, 2, 5⟩⟩
    [5, 50] [5, 50] rfl

/-- Polygon construction rejects fewer than 3 vertices. -/
theorem polygon_new_insufficient {ras decs : List ℚ}
    (h : (ras.zip decs).length < 3) :
    Polygon.new ras decs = .error .InsufficientVertices := by
  show (SphericalPolygon.new ras decs).map _ = _
  simp only [SphericalPolygon.new]
  rw [if_pos h]
  rfl

/-- Polygon construction rejects a degenerate consecutive vertex pair
when the vertex count is sufficient. -/
theorem polygon_new_degenerate {ras decs : List ℚ}
    (h3 : ¬(ras.zip decs).length < 3)
    (hdeg : hasDegenerateEdge (ras.zip decs) = true) :
    Polygon.new ras decs = .error .DegenerateEdge := by
  show (SphericalPolygon.new ras decs).map _ = _
  simp only [SphericalPolygon.new]
  rw [if_neg h3, if_pos hdeg]
  rfl

/-- Polygon construction succeeds exactly when the vertex count is
sufficient and no consecutive pair is degenerate. -/
theorem polygon_new_ok {ras decs : List ℚ} (h3 : ¬(ras.zip decs).length < 3)
    (hdeg : hasDegenerateEdge (ras.zip decs) = false) :
    Polygon.new ras decs = .ok ⟨⟨ras.zip decs⟩⟩ := by
  show (SphericalPolygon.new ras decs).map _ = _
  simp only [SphericalPolygon.new]
  rw [if_neg h3, if_neg (by rw [hdeg]; exact Bool.false_ne_true)]
  rfl

/-- C5: polygon construction fails fast with InsufficientVertices for
every input with fewer than 3 vertices, fails with DegenerateEdge for
every (sufficiently long) input in which some cyclically consecutive
vertex pair coincides or is antipodal, and in every failure case no
polygon value is returned to the caller. -/
theorem c5_polygon_construction_validation (ras decs : List ℚ) :
    ((ras.zip decs).length < 3 →
      Polygon.new ras decs = .error .InsufficientVertices) ∧
    (3 ≤ (ras.zip decs).length →
      (∃ i : Fin (ras.zip decs).length,
        degenerateVertexPair ((ras.zip decs).get i)
          ((ras.zip decs).get
            ⟨(i.val + 1) % (ras.zip decs).length, Nat.mod_lt _ i.pos⟩) =
          true) →
      Polygon.new ras decs = .error .DegenerateEdge) ∧
    (∀ e : RegionError, Polygon.new ras decs = .error e →
      ¬∃ p : Polygon, Polygon.new ras decs = .ok p) := by
  refine ⟨fun h => polygon_new_insufficient h, fun h3 hdeg => ?_, ?_⟩
  · exact polygon_new_degenerate (by omega)
      (by rw [hasDegenerateEdge]; exact decide_eq_true hdeg)
  · rintro e he ⟨p, hp⟩
    exact Except.noConfusion (he.symm.trans hp)

unseal Rat.add Rat.sub Rat.mul Rat.inv in
/-- C5 witness: a two-vertex input is rejected as InsufficientVertices,
and a triangle whose first two vertices coincide is rejected as
DegenerateEdge. -/
theorem c5_witness :
    Polygon.new [0, 1] [0, 1] = .error .InsufficientVertices ∧
    Polygon.new [0, 0, 10] [0, 0, 10] = .error .DegenerateEdge :=
  ⟨(c5_polygon_construction_validation [0, 1] [0, 1]).1 (by decide),
   (c5_polygon_construction_validation [0, 0, 10] [0, 0, 10]).2.1 (by decide)
     ⟨⟨0, by decide⟩, by decide⟩⟩

/-- State-threading runner: performs each query in sequence, passing the
(possibly updated) region state from one query to the next and collecting
the answers in order. -/
def runQueries {R Q A : Type} (f : R → Q → R × A) : R → List Q → R × List A
  | r, [] => (r, [])
  | r, q :: qs =>
    let step := f r q
    let rest := runQueries f step.1 qs
    (rest.1, step.2 :: rest.2)

/-- The `&self` receiver of `Polygon::is_inside` as explicit state
passing: the method reads the region and returns it unchanged beside the
result (the source takes `&self` and the struct has no interior
mutability). -/
def Polygon.is_inside_st (self : Polygon) (q : ℚ × ℚ) :
    Polygon × PointResult :=
  (self, self.is_inside q.1 q.2)

/-- The `&self` receiver of `Polygon::locate_all` as explicit state
passing. -/
def Polygon.locate_all_st (self : Polygon) (q : List ℚ × List ℚ) :
    Polygon × Except RegionError (List PointResult) :=
  (self, self.locate_all q.1 q.2)

/-- The `&self` receiver of `Aperture::is_inside` as explicit state
passing. -/
def Aperture.is_inside_st (sep : ℚ → ℚ → ℚ → ℚ → ℚ) (self : Aperture)
    (q : ℚ × ℚ) : Aperture × PointResult :=
  (self, Aperture.is_inside sep self q.1 q.2)

/-- The `&self` receiver of `Aperture::locate_all` as explicit state
passing. -/
def Aperture.locate_all_st (sep : ℚ → ℚ → ℚ → ℚ → ℚ) (self : Aperture)
    (q : List ℚ × List ℚ) : Aperture × Except RegionError (List PointResult) :=
  (self, Aperture.locate_all sep self q.1 q.2)

/-- The `&self` receiver of `Anulus::is_inside` as explicit state
passing. -/
def Anulus.is_inside_st (sep : ℚ → ℚ → ℚ → ℚ → ℚ) (self : Anulus)
    (q : ℚ × ℚ) : Anulus × PointResult :=
  (self, Anulus.is_inside sep self q.1 q.2)

/-- The `&self` receiver of `Anulus::locate_all` as explicit state
passing. -/
def Anulus.locate_all_st (sep : ℚ → ℚ → ℚ → ℚ → ℚ) (self : Anulus)
    (q : List ℚ × List ℚ) : Anulus × Except RegionError (List PointResult) :=
  (self, Anulus.locate_all sep self q.1 q.2)

/-- Running any sequence of read-only queries leaves the region unchanged
and answers each query as if it were the first. -/
theorem runQueries_readonly {R Q A : Type} (f : R → Q → R × A)
    (g : R → Q → A) (hf : ∀ r q, f r q = (r, g r q)) (r : R) (qs : List Q) :
    runQueries f r qs = (r, qs.map (g r)) := by
  induction qs with
  | nil => rfl
  | cons q qs ih => simp [runQueries, hf, ih]

/-- C8: regions are immutable under querying — threading any sequence of
single-point or batch queries through any region of any type returns the
region unchanged, and every answer equals the query applied to the
original region, so no query can alter a later query's result. -/
theorem c8_queries_pure (sep : ℚ → ℚ → ℚ → ℚ → ℚ) (poly : Polygon)
    (ap : Aperture) (an : Anulus) (qs : List (ℚ × ℚ))
    (qbs : List (List ℚ × List ℚ)) :
    runQueries Polygon.is_inside_st poly qs =
      (poly, qs.map fun q => poly.is_inside q.1 q.2) ∧
    runQueries (Aperture.is_inside_st sep) ap qs =
      (ap, qs.map fun q => Aperture.is_inside sep ap q.1 q.2) ∧
    runQueries (Anulus.is_inside_st sep) an qs =
      (an, qs.map fun q => Anulus.is_inside sep an q.1 q.2) ∧
    runQueries Polygon.locate_all_st poly qbs =
      (poly, qbs.map fun q => poly.locate_all q.1 q.2) ∧
    runQueries (Aperture.locate_all_st sep) ap qbs =
      (ap, qbs.map fun q => Aperture.locate_all sep ap q.1 q.2) ∧
    runQueries (Anulus.locate_all_st sep) an qbs =
      (an, qbs.map fun q => Anulus.locate_all sep an q.1 q.2) :=
  ⟨runQueries_readonly Polygon.is_inside_st
      (fun r q => r.is_inside q.1 q.2) (fun _ _ => rfl) poly qs,
   runQueries_readonly (Aperture.is_inside_st sep)
      (fun r q => Aperture.is_inside sep r q.1 q.2) (fun _ _ => rfl) ap qs,
   runQueries_readonly (Anulus.is_inside_st sep)
      (fun r q => Anulus.is_inside sep r q.1 q.2) (fun _ _ => rfl) an qs,
   runQueries_readonly Polygon.locate_all_st
      (fun r q => r.locate_all q.1 q.2) (fun _ _ => rfl) poly qbs,
   runQueries_readonly (Aperture.locate_all_st sep)
      (fun r q => Aperture.locate_all sep r q.1 q.2) (fun _ _ => rfl) ap qbs,
   runQueries_readonly (Anulus.locate_all_st sep)
      (fun r q => Anulus.locate_all sep r q.1 q.2) (fun _ _ => rfl) an qbs⟩

/-- Whether a fallible call produced a value. -/
def isOkE {ε α : Type} : Except ε α → Bool
  | .ok _ => true
  | .error _ => false

/-- Aperture construction succeeds or fails depending only on the
radius, never on the center coordinates. -/
theorem aperture_new_isOkE (ra dec r : ℚ) :
    isOkE (Aperture.new ra dec r) = !decide (r ≤ 0 ∨ 180 < r) := by
  by_cases hc : r ≤ 0 ∨ 180 < r
  · simp [Aperture.new, SphericalAperture.new, if_pos hc, Except.map, isOkE,
      hc]
  · simp [Aperture.new, SphericalAperture.new, if_neg hc, Except.map, isOkE,
      hc]

/-- Annulus construction succeeds or fails depending only on the radii,
never on the center coordinates. -/
theorem anulus_new_isOkE (ra dec inner outer : ℚ) :
    isOkE (Anulus.new ra dec inner outer) =
      (!decide (inner < 0 ∨ outer < 0 ∨ 180 < inner ∨ 180 < outer) &&
        !decide (outer ≤ inner)) := by
  by_cases hc : inner < 0 ∨ outer < 0 ∨ 180 < inner ∨ 180 < outer
  · simp [Anulus.new, SphericalAnulus.new, if_pos hc, Except.map, isOkE, hc]
  · by_cases hc2 : outer ≤ inner
    · simp [Anulus.new, SphericalAnulus.new, if_neg hc, if_pos hc2,
        Except.map, isOkE, hc, hc2]
    · simp [Anulus.new, SphericalAnulus.new, if_neg hc, if_neg hc2,
        Except.map, isOkE, hc, hc2]

/-- C10: the binding surface performs no coordinate-range validation.
Aperture and annulus construction outcomes are independent of the center
coordinates; polygon construction can only fail for vertex count or edge
degeneracy, never with a range error; and on equal-length inputs the
batch query succeeds for arbitrary (also out-of-range) coordinate
values. -/
theorem c10_no_range_validation (sep : ℚ → ℚ → ℚ → ℚ → ℚ) (poly : Polygon)
    (ap : Aperture) (an : Anulus) (ra dec ra2 dec2 r inner outer : ℚ)
    (ras decs vr vd : List ℚ) :
    isOkE (Aperture.new ra dec r) = isOkE (Aperture.new ra2 dec2 r) ∧
    isOkE (Anulus.new ra dec inner outer) =
      isOkE (Anulus.new ra2 dec2 inner outer) ∧
    (Polygon.new vr vd = .error .InsufficientVertices ∨
      Polygon.new vr vd = .error .DegenerateEdge ∨
      ∃ p, Polygon.new vr vd = .ok p) ∧
    (ras.length = decs.length →
      isOkE (poly.locate_all ras decs) = true ∧
      isOkE (Aperture.locate_all sep ap ras decs) = true ∧
      isOkE (Anulus.locate_all sep an ras decs) = true) := by
  refine ⟨?_, ?_, ?_, fun h => ⟨?_, ?_, ?_⟩⟩
  · rw [aperture_new_isOkE, aperture_new_isOkE]
  · rw [anulus_new_isOkE, anulus_new_isOkE]
  · by_cases h1 : (vr.zip vd).length < 3
    · exact Or.inl (polygon_new_insufficient h1)
    · cases h2 : hasDegenerateEdge (vr.zip vd) with
      | true => exact Or.inr (Or.inl (polygon_new_degenerate h1 h2))
      | false => exact Or.inr (Or.inr ⟨_, polygon_new_ok h1 h2⟩)
  · rw [polygon_locate_all_eq poly ras decs h]
    rfl
  · rw [aperture_locate_all_eq sep ap ras decs h]
    rfl
  · rw [anulus_locate_all_eq sep an ras decs h]
    rfl

/-- C10 witness: out-of-range coordinates (right ascension 700, 
declination −500, and query points far outside the nominal ranges) are
accepted exactly like in-range ones. -/
theorem c10_witness :
    isOkE (Aperture.new 700 (-500) 5) = isOkE (Aperture.new 0 0 5) ∧
    (isOkE (Polygon.locate_all ⟨⟨[(0, 0), (0, 10), (10, 10)]⟩⟩ [700, -90]
        [120, 500]) = true ∧
      isOkE (Aperture.locate_all (fun _ _ _ _ => 0) ⟨⟨0, 0, 5⟩⟩ [700, -90]
        [120, 500]) = true ∧
      isOkE (Anulus.locate_all (fun _ _ _ _ => 0) ⟨⟨0, 0, 2, 5⟩⟩ [700, -90]
        [120, 500]) = true) :=
  ⟨(c10_no_range_validation (fun _ _ _ _ => 0)
      ⟨⟨[(0, 0), (0, 10), (10, 10)]⟩⟩ ⟨⟨0, 0, 5⟩⟩ ⟨⟨0, 0, 2, 5⟩⟩ 700 (-500)
      0 0 5 2 5 [700, -90] [120, 500] [] []).1,
   (c10_no_range_validation (fun _ _ _ _ => 0)
      ⟨⟨[(0, 0), (0, 10), (10, 10)]⟩⟩ ⟨⟨0, 0, 5⟩⟩ ⟨⟨0, 0, 2, 5⟩⟩ 700 (-500)
      0 0 5 2 5 [700, -90] [120, 500] [] []).2.2.2 rfl⟩
